import Mathlib

/-!
Verification development for the streaming chat relay route (`POST` handler).

The handler validates an inbound `messages` body, assembles a prompt from the
conversation history plus a fixed system preamble, then relays upstream agent
events to the client as a server-sent-event style byte stream while keeping
per-request telemetry counters.

Modelling notes:
  * Machine-generated request ids, wall-clock timestamps and durations are
    omitted from telemetry records: they are environment inputs with no
    bearing on any property below.
  * The upstream agent iterator is modelled as a finite list of events,
    optionally followed by a thrown exception (`throwsAfter`), matching the
    two ways the `for await` loop can end.
  * `TextEncoder.encode` failure on a text delta (the only enqueue wrapped in
    its own try/catch) is modelled by an oracle `encFail` on the wire string.
  * JavaScript numbers carried by `tool_progress` are modelled as `Nat`.
-/

/-- Inbound message shape; at runtime the role is an arbitrary string that the
handler compares against the literal "user". -/
structure MessageInput where
  role : String
  content : String
deriving DecidableEq, Repr

/-- The fixed behavioral preamble prepended to every prompt. -/
def SYSTEM_PROMPT : String :=
  "You are a helpful personal assistant designed to help with general research, questions, and tasks.\n\nYour role is to:\n- Answer questions on any topic accurately and thoroughly\n- Help with research by searching the web for current information\n- Assist with writing, editing, and brainstorming\n- Provide explanations and summaries of complex topics\n- Help solve problems and think through decisions\n\nGuidelines:\n- Be friendly, clear, and conversational\n- Use web search when you need current information, facts you\x27re unsure about, or real-time data\n- Keep responses concise but complete - expand when the topic warrants depth\n- Use markdown formatting when it helps readability (bullet points, code blocks, etc.)\n- Be honest when you don\x27t know something and offer to search for answers"

/-- The nested delta of a `content_block_delta` event; only the `text_delta`
sub-variant is forwarded. -/
inductive DeltaKind where
  | text_delta (text : String)
  | otherDelta
deriving DecidableEq, Repr

/-- The event carried by a `stream_event` message. -/
inductive StreamEventKind where
  | content_block_delta (delta : Option DeltaKind)
  | otherEvent
deriving DecidableEq, Repr

/-- One content block of an assistant message; only `tool_use` blocks are
forwarded. -/
inductive ContentBlock where
  | tool_use (name : String) (tid : String)
  | otherBlock
deriving DecidableEq, Repr

/-- Upstream SDK message union, restricted to the tags the relay recognizes;
`otherMessage` stands for every unrecognized tag (silently ignored).
`assistantMsg none` models an assistant message whose content is not an
array. -/
inductive SDKMessage where
  | stream_event (event : StreamEventKind)
  | assistantMsg (content : Option (List ContentBlock))
  | tool_progress (tool_name : String) (elapsed_time_seconds : Nat)
  | result (subtype : String)
  | otherMessage
deriving DecidableEq, Repr

/-- Outbound structured frame, serialized to the wire as `data: ` + JSON. -/
inductive OutFrame where
  | text_delta (text : String)
  | tool_start (tool : String)
  | tool_progress (tool : String) (elapsed : Nat)
  | done
  | errorFrame (message : String)
deriving DecidableEq, Repr

/-- JSON string escaping as performed by `JSON.stringify` on the common
escapes (backslash, quote, newline, carriage return, tab). -/
def jsonEscapeChar (c : Char) : String :=
  if c = '\\' then "\\\\"
  else if c = '\"' then "\\\""
  else if c = '\n' then "\\n"
  else if c = '\r' then "\\r"
  else if c = '\t' then "\\t"
  else String.singleton c

/-- Escape a whole string for JSON embedding. -/
def jsonEscape (s : String) : String :=
  String.join (s.data.map jsonEscapeChar)

/-- A JSON string literal. -/
def jsonString (s : String) : String :=
  "\"" ++ jsonEscape s ++ "\""

/-- Wire encoding of one outbound frame: `data: ` + JSON.stringify(frame) +
two newlines, with field order exactly as in the source object literals. -/
def frameWire : OutFrame → String
  | OutFrame.text_delta t =>
      "data: \x7b\"type\":\"text_delta\",\"text\":" ++ jsonString t ++ "\x7d\n\n"
  | OutFrame.tool_start tool =>
      "data: \x7b\"type\":\"tool_start\",\"tool\":" ++ jsonString tool ++ "\x7d\n\n"
  | OutFrame.tool_progress tool elapsed =>
      "data: \x7b\"type\":\"tool_progress\",\"tool\":" ++ jsonString tool ++
        ",\"elapsed\":" ++ toString elapsed ++ "\x7d\n\n"
  | OutFrame.done => "data: \x7b\"type\":\"done\"\x7d\n\n"
  | OutFrame.errorFrame msg =>
      "data: \x7b\"type\":\"error\",\"message\":" ++ jsonString msg ++ "\x7d\n\n"

/-- The literal end-of-stream sentinel chunk. -/
def doneSentinel : String := "data: [DONE]\n\n"

/-- Per-request telemetry counters of the RequestContext. -/
structure Counters where
  chunkCount : Nat
  textDeltaCount : Nat
  toolsUsedCount : Nat
  parseErrorCount : Nat
deriving DecidableEq, Repr

/-- All four counters start at zero. -/
def initCounters : Counters :=
  { chunkCount := 0, textDeltaCount := 0, toolsUsedCount := 0, parseErrorCount := 0 }

/-- Pointwise order on the counters, for the monotonicity invariant. -/
def countersLE (a b : Counters) : Prop :=
  a.chunkCount ≤ b.chunkCount ∧ a.textDeltaCount ≤ b.textDeltaCount ∧
    a.toolsUsedCount ≤ b.toolsUsedCount ∧ a.parseErrorCount ≤ b.parseErrorCount

instance (a b : Counters) : Decidable (countersLE a b) := by
  unfold countersLE; infer_instance

/-- Telemetry operations the relay performs: Sentry breadcrumbs (category,
message, level, structured data) and exception capture (location tag plus the
stream counters attached as context). -/
inductive TelemetryEvent where
  | breadcrumb (category message level : String) (data : List (String × String))
  | captureException (location : String) (chunk td tools : Nat)
deriving DecidableEq, Repr

/-- Breadcrumb recorded when encoding a text delta throws. -/
def parseErrorCrumb : TelemetryEvent :=
  TelemetryEvent.breadcrumb "chat.stream" "Parse error during text delta encoding"
    "warning" [("error_type", "text_delta_encoding")]

/-- Breadcrumb recorded when a `tool_use` block is forwarded. -/
def toolStartedCrumb (name tid : String) : TelemetryEvent :=
  TelemetryEvent.breadcrumb "chat.tool" ("Tool started: " ++ name) "info"
    [("tool_name", name), ("tool_id", tid)]

/-- Breadcrumb recorded for a `tool_progress` message. -/
def toolProgressCrumb (name : String) (elapsed : Nat) : TelemetryEvent :=
  TelemetryEvent.breadcrumb "chat.tool" ("Tool progress: " ++ name) "info"
    [("tool_name", name), ("elapsed_seconds", toString elapsed)]

/-- Breadcrumb recorded for a non-success `result`. -/
def resultErrorCrumb (subtype : String) : TelemetryEvent :=
  TelemetryEvent.breadcrumb "chat.stream" "Stream result error" "error"
    [("subtype", subtype)]

/-- Breadcrumb recorded just before the `[DONE]` sentinel is enqueued. -/
def doneMarkerCrumb : TelemetryEvent :=
  TelemetryEvent.breadcrumb "chat.stream" "Stream [DONE] marker sent" "info" []

/-- Summary breadcrumb recorded after the stream closes, carrying the final
counter values (elapsed duration omitted: wall-clock). -/
def summaryCrumb (c : Counters) : TelemetryEvent :=
  TelemetryEvent.breadcrumb "chat.stream" "Chat stream completed" "info"
    [("chunk_count", toString c.chunkCount),
     ("text_delta_count", toString c.textDeltaCount),
     ("tools_used_count", toString c.toolsUsedCount),
     ("parse_error_count", toString c.parseErrorCount)]

/-- Breadcrumb recorded in the stream-level catch branch. -/
def streamErrorCrumb : TelemetryEvent :=
  TelemetryEvent.breadcrumb "chat.stream" "Stream error" "error" []

/-- Accumulated result of running (part of) the event loop: the updated
counters, the outbound frames enqueued, and the telemetry recorded. -/
structure LoopResult where
  counters : Counters
  frames : List OutFrame
  telemetry : List TelemetryEvent
deriving DecidableEq, Repr

/-- Body of the `for (const block of content)` loop: a `tool_use` block bumps
the counter, records the breadcrumb and enqueues a `tool_start` frame; any
other block is skipped. -/
def toolUseFold (r : LoopResult) (b : ContentBlock) : LoopResult :=
  match b with
  | ContentBlock.tool_use name tid =>
      { counters :=
          { r.counters with toolsUsedCount := r.counters.toolsUsedCount + 1 },
        frames := r.frames ++ [OutFrame.tool_start name],
        telemetry := r.telemetry ++ [toolStartedCrumb name tid] }
  | ContentBlock.otherBlock => r

/-- One iteration of the `for await` body: classify the message and act.
`encFail w` tells whether `encoder.encode` throws on the wire string `w`
(only the text-delta enqueue is individually guarded in the source). -/
def processMessage (encFail : String → Bool) (c : Counters) (m : SDKMessage) :
    LoopResult :=
  let c := { c with chunkCount := c.chunkCount + 1 }
  match m with
  | SDKMessage.stream_event ev =>
      match ev with
      | StreamEventKind.content_block_delta (some (DeltaKind.text_delta t)) =>
          let c := { c with textDeltaCount := c.textDeltaCount + 1 }
          let wire := frameWire (OutFrame.text_delta t)
          if encFail wire then
            { counters := { c with parseErrorCount := c.parseErrorCount + 1 },
              frames := [], telemetry := [parseErrorCrumb] }
          else
            { counters := c, frames := [OutFrame.text_delta t], telemetry := [] }
      | _ => { counters := c, frames := [], telemetry := [] }
  | SDKMessage.assistantMsg (some blocks) =>
      blocks.foldl toolUseFold { counters := c, frames := [], telemetry := [] }
  | SDKMessage.assistantMsg none =>
      { counters := c, frames := [], telemetry := [] }
  | SDKMessage.tool_progress name elapsed =>
      { counters := c, frames := [OutFrame.tool_progress name elapsed],
        telemetry := [toolProgressCrumb name elapsed] }
  | SDKMessage.result subtype =>
      if subtype = "success" then
        { counters := c, frames := [OutFrame.done], telemetry := [] }
      else
        { counters := c, frames := [OutFrame.errorFrame "Query did not complete successfully"],
          telemetry := [resultErrorCrumb subtype] }
  | SDKMessage.otherMessage =>
      { counters := c, frames := [], telemetry := [] }

/-- The `for await` loop over the upstream events, threading the counters and
concatenating frames and telemetry in event order. -/
def runLoop (encFail : String → Bool) (c : Counters) : List SDKMessage → LoopResult
  | [] => { counters := c, frames := [], telemetry := [] }
  | m :: ms =>
      let r := processMessage encFail c m
      let rest := runLoop encFail r.counters ms
      { counters := rest.counters, frames := r.frames ++ rest.frames,
        telemetry := r.telemetry ++ rest.telemetry }

/-- The upstream iterator: a finite event sequence, which afterwards either
exhausts naturally (`throwsAfter = false`) or throws (`throwsAfter = true`). -/
structure Upstream where
  events : List SDKMessage
  throwsAfter : Bool
deriving DecidableEq, Repr

/-- All structured frames the relay enqueues for a given upstream run: the
loop output, plus — on the throw path — the single catch-branch error
frame. -/
def outFrames (encFail : String → Bool) (u : Upstream) : List OutFrame :=
  let r := runLoop encFail initCounters u.events
  if u.throwsAfter then r.frames ++ [OutFrame.errorFrame "Stream error occurred"]
  else r.frames

/-- The stream body's full observable output: byte chunks enqueued on the
controller, telemetry recorded, and the final counters. On natural
exhaustion the sentinel chunk follows the frames and the summary breadcrumb
is recorded; on the throw path the catch branch enqueues one error frame and
closes without the sentinel. -/
structure StreamOutput where
  chunks : List String
  telemetry : List TelemetryEvent
  counters : Counters
deriving DecidableEq, Repr

/-- JavaScript `Array.prototype.join` on a list of strings: empty string for
the empty list, otherwise elements separated by `sep`. -/
def joinList (sep : String) : List String → String
  | [] => ""
  | [x] => x
  | x :: y :: xs => x ++ sep ++ joinList sep (y :: xs)

/-- Render one message as `"<Role>: <content>"`, role mapped to `User` for
role `user` and `Assistant` otherwise. -/
def renderMessage (m : MessageInput) : String :=
  (if m.role = "user" then "User" else "Assistant") ++ ": " ++ m.content

/-- conversationContext: all messages except the last array element, rendered
and joined with a blank line. -/
def conversationContext (messages : List MessageInput) : String :=
  joinList "\n\n" (messages.dropLast.map renderMessage)

/-- fullPrompt: preamble plus optional prior-conversation block plus the most
recent user turn (the ternary tests JS truthiness of the context string,
i.e. non-emptiness). -/
def fullPrompt (messages : List MessageInput) (lastContent : String) : String :=
  if conversationContext messages ≠ "" then
    SYSTEM_PROMPT ++ "\n\nPrevious conversation:\n" ++ conversationContext messages ++
      "\n\nUser: " ++ lastContent
  else
    SYSTEM_PROMPT ++ "\n\nUser: " ++ lastContent

/-- lastUserMessage: `messages.filter(m => m.role === 'user').pop()`. -/
def lastUserMessage (messages : List MessageInput) : Option MessageInput :=
  (messages.filter (fun m => m.role == "user")).getLast?

/-- Parsed request body as the handler observes it after `request.json()`:
the JSON parse may throw, the `messages` field may be absent/falsy, present
but not an array, or an actual array. -/
inductive ReqBody where
  | invalidJson
  | missingMessages
  | nonArrayMessages
  | withMessages (messages : List MessageInput)
deriving DecidableEq, Repr

/-- The handler's response: a plain JSON response with a status code, or the
event-stream response carrying the relay's chunks. -/
inductive PostResult where
  | jsonResponse (status : Nat) (body : String)
  | streamResponse (chunks : List String)
deriving DecidableEq, Repr

/-- Run the whole `start(controller)` body for an upstream behavior. -/
def runStream (encFail : String → Bool) (u : Upstream) : StreamOutput :=
  let r := runLoop encFail initCounters u.events
  if u.throwsAfter then
    { chunks := (r.frames ++ [OutFrame.errorFrame "Stream error occurred"]).map frameWire,
      telemetry := r.telemetry ++
        [streamErrorCrumb,
         TelemetryEvent.captureException "stream_processing" r.counters.chunkCount
           r.counters.textDeltaCount r.counters.toolsUsedCount],
      counters := r.counters }
  else
    { chunks := r.frames.map frameWire ++ [doneSentinel],
      telemetry := r.telemetry ++ [doneMarkerCrumb, summaryCrumb r.counters],
      counters := r.counters }

/-- The POST handler. `upstream` gives the agent's behavior as a function of
the prompt string passed to `query`; validation failures return before any
upstream call is made, so their result cannot depend on `upstream`. -/
def POST (body : ReqBody) (encFail : String → Bool) (upstream : String → Upstream) :
    PostResult :=
  match body with
  | ReqBody.invalidJson =>
      PostResult.jsonResponse 500
        "\x7b\"error\":\"Failed to process chat request. Check server logs for details.\"\x7d"
  | ReqBody.missingMessages =>
      PostResult.jsonResponse 400 "\x7b\"error\":\"Messages array is required\"\x7d"
  | ReqBody.nonArrayMessages =>
      PostResult.jsonResponse 400 "\x7b\"error\":\"Messages array is required\"\x7d"
  | ReqBody.withMessages messages =>
      match lastUserMessage messages with
      | none => PostResult.jsonResponse 400 "\x7b\"error\":\"No user message found\"\x7d"
      | some lastUser =>
          PostResult.streamResponse
            (runStream encFail (upstream (fullPrompt messages lastUser.content))).chunks

/-- A frame is terminal when it is `done` or `error`. -/
def isTerminal : OutFrame → Bool
  | OutFrame.done => true
  | OutFrame.errorFrame _ => true
  | _ => false

/-- Whether an upstream message is a `result` event (of any subtype). -/
def isResult : SDKMessage → Bool
  | SDKMessage.result _ => true
  | _ => false

/-- Number of `result` events in an upstream sequence. -/
def resultCount (l : List SDKMessage) : Nat := l.countP isResult

/-- The `tool_use` blocks of an assistant message, as (name, id) pairs. -/
def toolUses (blocks : List ContentBlock) : List (String × String) :=
  blocks.filterMap
    (fun b =>
      match b with
      | ContentBlock.tool_use name tid => some (name, tid)
      | ContentBlock.otherBlock => none)

/-- The upstream event representing a `stream_event` / `content_block_delta`
/ `text_delta` carrying text `t`. -/
def textDeltaEvent (t : String) : SDKMessage :=
  SDKMessage.stream_event
    (StreamEventKind.content_block_delta (some (DeltaKind.text_delta t)))

/-- Modelled from the spec: the Prompt Assembler contract of the design
document, stated in its own words — render each message of the history
(all but the last) as Role-colon-content, join with a blank-line separator
into the transcript, then branch on transcript emptiness. Used to compare
the source's `fullPrompt` against the spec's algorithm. -/
def specAssemblePrompt (messages : List MessageInput) (lastContent : String) : String :=
  let transcript :=
    joinList "\n\n"
      (messages.dropLast.map
        (fun m => (if m.role = "user" then "User" else "Assistant") ++ ": " ++ m.content))
  if transcript = "" then SYSTEM_PROMPT ++ "\n\nUser: " ++ lastContent
  else
    SYSTEM_PROMPT ++ "\n\nPrevious conversation:\n" ++ transcript ++
      "\n\nUser: " ++ lastContent

/-! ### Helper lemmas -/

/-- An element returned by `getLast?` is a member of the list. -/
theorem mem_of_getLastQ {α : Type} {l : List α} {a : α} (h : l.getLast? = some a) :
    a ∈ l := by
  have hne : l ≠ [] := by
    intro he; rw [he] at h; simp at h
  have heq := List.getLast?_eq_getLast l hne
  rw [heq, Option.some_inj] at h
  rw [← h]
  exact List.getLast_mem hne

/-- Characterization of the `for (const block of content)` fold: it bumps
`toolsUsedCount` once per `tool_use` block and appends one `tool_start`
frame and one breadcrumb per such block, in block order. -/
theorem toolUseFold_spec (blocks : List ContentBlock) (r : LoopResult) :
    blocks.foldl toolUseFold r =
      { counters :=
          { r.counters with
            toolsUsedCount := r.counters.toolsUsedCount + (toolUses blocks).length },
        frames := r.frames ++ (toolUses blocks).map (fun p => OutFrame.tool_start p.1),
        telemetry := r.telemetry ++ (toolUses blocks).map (fun p => toolStartedCrumb p.1 p.2) } := by
  induction blocks generalizing r with
  | nil => simp [toolUses]
  | cons b bs ih =>
      cases b with
      | tool_use name tid =>
          simp only [List.foldl_cons, toolUseFold, ih, toolUses, List.filterMap_cons]
          simp [List.append_assoc]
          omega
      | otherBlock =>
          simp only [List.foldl_cons, toolUseFold, ih, toolUses, List.filterMap_cons]

/-- Counter bookkeeping of a single loop iteration: `chunkCount` goes up by
exactly one, `textDeltaCount` by at most one, and no counter decreases. -/
theorem processMessage_counters (enc : String → Bool) (c : Counters) (m : SDKMessage) :
    (processMessage enc c m).counters.chunkCount = c.chunkCount + 1 ∧
      c.textDeltaCount ≤ (processMessage enc c m).counters.textDeltaCount ∧
      (processMessage enc c m).counters.textDeltaCount ≤ c.textDeltaCount + 1 ∧
      c.toolsUsedCount ≤ (processMessage enc c m).counters.toolsUsedCount ∧
      c.parseErrorCount ≤ (processMessage enc c m).counters.parseErrorCount := by
  cases m with
  | stream_event ev =>
      cases ev with
      | content_block_delta d =>
          match d with
          | none => simp [processMessage]
          | some (DeltaKind.text_delta t) =>
              by_cases h : enc (frameWire (OutFrame.text_delta t)) = true
              · simp [processMessage, h]
              · simp [processMessage, h]
          | some DeltaKind.otherDelta => simp [processMessage]
      | otherEvent => simp [processMessage]
  | assistantMsg content =>
      cases content with
      | none => simp [processMessage]
      | some blocks => simp [processMessage, toolUseFold_spec]
  | tool_progress name elapsed => simp [processMessage]
  | result subtype => by_cases h : subtype = "success" <;> simp [processMessage, h]
  | otherMessage => simp [processMessage]

/-- Splitting the event loop over an append of event lists. -/
theorem runLoop_append (enc : String → Bool) (c : Counters) (l1 l2 : List SDKMessage) :
    runLoop enc c (l1 ++ l2) =
      { counters := (runLoop enc (runLoop enc c l1).counters l2).counters,
        frames :=
          (runLoop enc c l1).frames ++ (runLoop enc (runLoop enc c l1).counters l2).frames,
        telemetry :=
          (runLoop enc c l1).telemetry ++
            (runLoop enc (runLoop enc c l1).counters l2).telemetry } := by
  induction l1 generalizing c with
  | nil => simp [runLoop]
  | cons m ms ih => simp [runLoop, ih, List.append_assoc]

/-- Counter bookkeeping of the whole loop: `chunkCount` advances by the
number of events, `textDeltaCount` by at most that, and the loop never
decreases any counter. -/
theorem runLoop_counters (enc : String → Bool) (c : Counters) (l : List SDKMessage) :
    (runLoop enc c l).counters.chunkCount = c.chunkCount + l.length ∧
      (runLoop enc c l).counters.textDeltaCount ≤ c.textDeltaCount + l.length ∧
      countersLE c (runLoop enc c l).counters := by
  induction l generalizing c with
  | nil => simp [runLoop, countersLE]
  | cons m ms ih =>
      have hp := processMessage_counters enc c m
      have hr := ih (processMessage enc c m).counters
      unfold countersLE at hr ⊢
      simp only [runLoop, List.length_cons]
      omega

/-- A single iteration enqueues exactly one terminal frame when the event is
a `result`, and none otherwise. -/
theorem processMessage_terminal (enc : String → Bool) (c : Counters) (m : SDKMessage) :
    (processMessage enc c m).frames.countP isTerminal = if isResult m then 1 else 0 := by
  cases m with
  | stream_event ev =>
      cases ev with
      | content_block_delta d =>
          match d with
          | none => simp [processMessage, isResult]
          | some (DeltaKind.text_delta t) =>
              by_cases h : enc (frameWire (OutFrame.text_delta t)) = true
              · simp [processMessage, h, isResult]
              · simp [processMessage, h, isResult, isTerminal]
          | some DeltaKind.otherDelta => simp [processMessage, isResult]
      | otherEvent => simp [processMessage, isResult]
  | assistantMsg content =>
      cases content with
      | none => simp [processMessage, isResult]
      | some blocks =>
          simp [processMessage, toolUseFold_spec, isResult, List.countP_map]
          simp [Function.comp, isTerminal, List.countP_eq_zero]
  | tool_progress name elapsed => simp [processMessage, isResult, isTerminal]
  | result subtype =>
      by_cases h : subtype = "success" <;> simp [processMessage, h, isResult, isTerminal]
  | otherMessage => simp [processMessage, isResult]

/-- The loop enqueues exactly one terminal frame per `result` event. -/
theorem runLoop_terminal (enc : String → Bool) (c : Counters) (l : List SDKMessage) :
    (runLoop enc c l).frames.countP isTerminal = resultCount l := by
  induction l generalizing c with
  | nil => simp [runLoop, resultCount]
  | cons m ms ih =>
      simp only [runLoop, List.countP_append, processMessage_terminal,
        resultCount, List.countP_cons, ih]
      by_cases h : isResult m = true <;> simp [h, resultCount, Nat.add_comm]

/-- The final chunk of every stream: the sentinel on natural exhaustion, the
catch-branch error frame on the throw path. -/
theorem runStream_chunks_getLast (enc : String → Bool) (u : Upstream) :
    (runStream enc u).chunks.getLast? =
      some
        (if u.throwsAfter then frameWire (OutFrame.errorFrame "Stream error occurred")
         else doneSentinel) := by
  unfold runStream
  cases hu : u.throwsAfter <;> simp [List.getLast?_concat]

/-- Every member of a joined list appears as an infix of the join. -/
theorem joinList_mem_split (sep x : String) (l : List String) (hx : x ∈ l) :
    ∃ a b, joinList sep l = a ++ x ++ b := by
  induction l with
  | nil => cases hx
  | cons y ys ih =>
      rcases List.mem_cons.mp hx with h | h
      · subst h
        cases ys with
        | nil => exact ⟨"", "", by simp [joinList]⟩
        | cons z zs =>
            exact ⟨"", sep ++ joinList sep (z :: zs),
              by simp [joinList, String.append_assoc, String.empty_append]⟩
      · cases ys with
        | nil => cases h
        | cons z zs =>
            obtain ⟨a, b, hab⟩ := ih h
            exact ⟨y ++ sep ++ a, b, by simp [joinList, hab, String.append_assoc]⟩

/-! ### Claim theorems -/

/-- Claim C1, counterexample: when the upstream iterator throws immediately,
the outbound stream is the single catch-branch `error` frame and the
`data: [DONE]` sentinel chunk never appears, contradicting the claim that
every stream ends with the sentinel. -/
theorem C1_counterexample :
    (runStream (fun _ => false) { events := [], throwsAfter := true }).chunks =
        [frameWire (OutFrame.errorFrame "Stream error occurred")] ∧
      doneSentinel ∉
        (runStream (fun _ => false) { events := [], throwsAfter := true }).chunks := by
  decide

/-- Claim C1 (amended): on natural upstream exhaustion the outbound stream
ends with the literal `data: [DONE]` sentinel; when the upstream iterator
throws, the stream consists of the frames emitted so far followed by exactly
one `error` frame, and closes without the sentinel. In both cases the stream
is terminated, with the final chunk determined by the exit path. -/
theorem C1_stream_termination (enc : String → Bool) (u : Upstream) :
    (runStream enc u).chunks =
        (runLoop enc initCounters u.events).frames.map frameWire ++
          (if u.throwsAfter then [frameWire (OutFrame.errorFrame "Stream error occurred")]
           else [doneSentinel]) ∧
      (runStream enc u).chunks.getLast? =
        some
          (if u.throwsAfter then frameWire (OutFrame.errorFrame "Stream error occurred")
           else doneSentinel) := by
  refine ⟨?_, runStream_chunks_getLast enc u⟩
  unfold runStream
  cases hu : u.throwsAfter <;> simp

/-- Claim C2, counterexample: an upstream sequence with two `success`
results yields two terminal (`done`) frames on one request's stream, not
exactly one. -/
theorem C2_counterexample :
    (outFrames (fun _ => false)
          { events := [SDKMessage.result "success", SDKMessage.result "success"],
            throwsAfter := false }).countP isTerminal = 2 ∧
      ¬(outFrames (fun _ => false)
            { events := [SDKMessage.result "success", SDKMessage.result "success"],
              throwsAfter := false }).countP isTerminal = 1 := by
  decide

/-- Claim C2 (amended): the relay emits exactly one terminal frame (`done`
or `error`) per upstream `result` event, plus exactly one further `error`
frame on the throw path; so a request's stream carries as many terminal
frames as the upstream emitted `result` events (plus one if iteration
threw), which can be zero or several. -/
theorem C2_terminal_frame_count (enc : String → Bool) (u : Upstream) :
    (outFrames enc u).countP isTerminal =
      resultCount u.events + (if u.throwsAfter then 1 else 0) := by
  unfold outFrames
  cases hu : u.throwsAfter <;>
    simp [List.countP_append, runLoop_terminal, List.countP_cons, isTerminal]

/-- Claim C3: for the synthetic upstream sequence text_delta("a"),
tool_use("search"), text_delta("b"), result(success), the outbound frames
are text_delta{a}, tool_start{search}, text_delta{b}, done, then the
`[DONE]` sentinel, in exactly that order. -/
theorem C3_ordering (tid : String) :
    outFrames (fun _ => false)
        { events :=
            [textDeltaEvent "a",
             SDKMessage.assistantMsg (some [ContentBlock.tool_use "search" tid]),
             textDeltaEvent "b",
             SDKMessage.result "success"],
          throwsAfter := false } =
        [OutFrame.text_delta "a", OutFrame.tool_start "search", OutFrame.text_delta "b",
         OutFrame.done] ∧
      (runStream (fun _ => false)
            { events :=
                [textDeltaEvent "a",
                 SDKMessage.assistantMsg (some [ContentBlock.tool_use "search" tid]),
                 textDeltaEvent "b",
                 SDKMessage.result "success"],
              throwsAfter := false }).chunks =
        [frameWire (OutFrame.text_delta "a"), frameWire (OutFrame.tool_start "search"),
         frameWire (OutFrame.text_delta "b"), frameWire OutFrame.done, doneSentinel] := by
  constructor
  · simp [outFrames, runLoop, processMessage, toolUseFold, textDeltaEvent]
  · simp [runStream, runLoop, processMessage, toolUseFold, textDeltaEvent]

/-- Claim C5: a parsed body whose `messages` field is missing/falsy or not
an array yields status 400 with body error "Messages array is required",
and the response is independent of the upstream agent — no upstream call is
made. -/
theorem C5_messages_required (enc enc2 : String → Bool) (u u2 : String → Upstream) :
    POST ReqBody.missingMessages enc u =
        PostResult.jsonResponse 400 "\x7b\"error\":\"Messages array is required\"\x7d" ∧
      POST ReqBody.nonArrayMessages enc u =
        PostResult.jsonResponse 400 "\x7b\"error\":\"Messages array is required\"\x7d" ∧
      POST ReqBody.missingMessages enc u = POST ReqBody.missingMessages enc2 u2 ∧
      POST ReqBody.nonArrayMessages enc u = POST ReqBody.nonArrayMessages enc2 u2 := by
  simp [POST]

/-- Claim C6: a `messages` array with zero role-"user" entries (including
the empty array) yields status 400 with body error "No user message found",
independently of the upstream agent — no upstream call is made. -/
theorem C6_no_user_message (enc enc2 : String → Bool) (u u2 : String → Upstream)
    (messages : List MessageInput)
    (h : messages.filter (fun m => m.role == "user") = []) :
    POST (ReqBody.withMessages messages) enc u =
        PostResult.jsonResponse 400 "\x7b\"error\":\"No user message found\"\x7d" ∧
      POST (ReqBody.withMessages messages) enc u =
        POST (ReqBody.withMessages messages) enc2 u2 := by
  have hl : lastUserMessage messages = none := by
    unfold lastUserMessage; rw [h]; rfl
  simp [POST, hl]

/-- Claim C6 witness: the empty messages array is rejected with the
"No user message found" response. -/
theorem C6_no_user_message_witness :
    POST (ReqBody.withMessages []) (fun _ => false)
        (fun _ => { events := [], throwsAfter := false }) =
      PostResult.jsonResponse 400 "\x7b\"error\":\"No user message found\"\x7d" :=
  (C6_no_user_message (fun _ => false) (fun _ => false)
    (fun _ => { events := [], throwsAfter := false })
    (fun _ => { events := [], throwsAfter := false }) [] rfl).1

/-- Claim C9: a `result` event with subtype `success` enqueues a `done`
frame and iteration continues — the loop result on `result(success) :: rest`
is the `done` frame followed by the normal processing of `rest`, so events
after the success result are still processed under the usual rules. -/
theorem C9_success_result_continues (enc : String → Bool) (c : Counters)
    (rest : List SDKMessage) :
    runLoop enc c (SDKMessage.result "success" :: rest) =
      { counters := (runLoop enc { c with chunkCount := c.chunkCount + 1 } rest).counters,
        frames :=
          OutFrame.done :: (runLoop enc { c with chunkCount := c.chunkCount + 1 } rest).frames,
        telemetry := (runLoop enc { c with chunkCount := c.chunkCount + 1 } rest).telemetry } := by
  simp [runLoop, processMessage]

/-- Claim C4: for every validated message sequence (one with a user
message), the prompt actually assembled by the handler coincides with the
spec's assembly algorithm: preamble, optional "Previous conversation" block
built from all messages but the last joined by blank lines, then
"User: " plus the most recent user message's content. -/
theorem C4_prompt_assembly (messages : List MessageInput) (lu : MessageInput)
    (_h : lastUserMessage messages = some lu) :
    fullPrompt messages lu.content = specAssemblePrompt messages lu.content := by
  have hmap :
      messages.dropLast.map
          (fun m => (if m.role = "user" then "User" else "Assistant") ++ ": " ++ m.content) =
        messages.dropLast.map renderMessage := rfl
  unfold fullPrompt specAssemblePrompt conversationContext
  rw [hmap]
  by_cases hc : joinList "\n\n" (messages.dropLast.map renderMessage) = "" <;> simp [hc]

/-- Claim C4 witness: a concrete three-turn conversation whose prompt the
handler assembles exactly as the spec prescribes. -/
theorem C4_prompt_assembly_witness :
    fullPrompt
        [{ role := "user", content := "hi" }, { role := "assistant", content := "yo" },
         { role := "user", content := "again" }] "again" =
      specAssemblePrompt
        [{ role := "user", content := "hi" }, { role := "assistant", content := "yo" },
         { role := "user", content := "again" }] "again" :=
  C4_prompt_assembly
    [{ role := "user", content := "hi" }, { role := "assistant", content := "yo" },
     { role := "user", content := "again" }]
    { role := "user", content := "again" } (by decide)

/-- Claim C7: on a `stream_event` carrying a `content_block_delta` /
`text_delta`, the iteration increments `textDeltaCount` and attempts the
`text_delta` frame; when encoding fails it increments `parseErrorCount`,
records the warning breadcrumb and drops the frame, and in either case the
loop continues with the remaining events — a failed delta never terminates
the stream. -/
theorem C7_text_delta_handling (enc : String → Bool) (c : Counters) (t : String)
    (rest : List SDKMessage) :
    processMessage enc c (textDeltaEvent t) =
        (if enc (frameWire (OutFrame.text_delta t)) then
          { counters :=
              { c with
                chunkCount := c.chunkCount + 1, textDeltaCount := c.textDeltaCount + 1,
                parseErrorCount := c.parseErrorCount + 1 },
            frames := [], telemetry := [parseErrorCrumb] }
        else
          { counters :=
              { c with
                chunkCount := c.chunkCount + 1, textDeltaCount := c.textDeltaCount + 1 },
            frames := [OutFrame.text_delta t], telemetry := [] }) ∧
      runLoop enc c (textDeltaEvent t :: rest) =
        { counters := (runLoop enc (processMessage enc c (textDeltaEvent t)).counters rest).counters,
          frames :=
            (processMessage enc c (textDeltaEvent t)).frames ++
              (runLoop enc (processMessage enc c (textDeltaEvent t)).counters rest).frames,
          telemetry :=
            (processMessage enc c (textDeltaEvent t)).telemetry ++
              (runLoop enc (processMessage enc c (textDeltaEvent t)).counters rest).telemetry } := by
  constructor
  · by_cases h : enc (frameWire (OutFrame.text_delta t)) = true <;>
      simp [processMessage, textDeltaEvent, h]
  · simp [runLoop]

/-- Claim C8: all four RequestContext counters are monotonically
non-decreasing across the request (every prefix of the event sequence yields
pointwise-smaller counters), `chunkCount` equals the number of upstream
events pulled, `textDeltaCount` never exceeds it, and the summary breadcrumb
is the last telemetry event recorded and carries exactly the final counter
values. -/
theorem C8_counter_invariants (enc : String → Bool) (events : List SDKMessage) :
    (runLoop enc initCounters events).counters.chunkCount = events.length ∧
      (runLoop enc initCounters events).counters.textDeltaCount ≤
        (runLoop enc initCounters events).counters.chunkCount ∧
      (∀ pre post, events = pre ++ post →
        countersLE (runLoop enc initCounters pre).counters
          (runLoop enc initCounters events).counters) ∧
      (runStream enc { events := events, throwsAfter := false }).telemetry.getLast? =
        some (summaryCrumb (runLoop enc initCounters events).counters) := by
  obtain ⟨h1, h2, _⟩ := runLoop_counters enc initCounters events
  rw [show initCounters.chunkCount = 0 from rfl, Nat.zero_add] at h1
  rw [show initCounters.textDeltaCount = 0 from rfl, Nat.zero_add] at h2
  refine ⟨h1, by omega, ?_, ?_⟩
  · intro pre post hpp
    subst hpp
    rw [runLoop_append]
    exact (runLoop_counters enc (runLoop enc initCounters pre).counters post).2.2
  · unfold runStream
    simp only [Bool.false_eq_true, if_false, ite_false]
    rw [show (runLoop enc initCounters events).telemetry ++
          [doneMarkerCrumb, summaryCrumb (runLoop enc initCounters events).counters] =
        ((runLoop enc initCounters events).telemetry ++ [doneMarkerCrumb]) ++
          [summaryCrumb (runLoop enc initCounters events).counters] by
      simp]
    exact List.getLast?_concat _

/-- Claim C8 witness: the counter invariants instantiated on a concrete
two-event run, with the prefix-monotonicity hypothesis discharged at the
split after the first event. -/
theorem C8_counter_invariants_witness :
    (runLoop (fun _ => false) initCounters
          [textDeltaEvent "x", SDKMessage.result "success"]).counters.chunkCount = 2 ∧
      countersLE (runLoop (fun _ => false) initCounters [textDeltaEvent "x"]).counters
        (runLoop (fun _ => false) initCounters
          [textDeltaEvent "x", SDKMessage.result "success"]).counters :=
  ⟨(C8_counter_invariants (fun _ => false)
      [textDeltaEvent "x", SDKMessage.result "success"]).1,
   (C8_counter_invariants (fun _ => false)
      [textDeltaEvent "x", SDKMessage.result "success"]).2.2.1
      [textDeltaEvent "x"] [SDKMessage.result "success"] rfl⟩

/-- Claim C10: when the final array element is an assistant turn, the
assembled prompt contains the most recent user message's content twice —
once inside the transcript (only the final array element is excluded from
it, not the final user turn) and once after the trailing "User: " marker. -/
theorem C10_duplicated_user_content (messages : List MessageInput) (lu lastMsg : MessageInput)
    (h1 : lastUserMessage messages = some lu)
    (h2 : messages.getLast? = some lastMsg)
    (h3 : lastMsg.role = "assistant") :
    ∃ x y, fullPrompt messages lu.content =
      x ++ ("User: " ++ lu.content) ++ y ++ ("User: " ++ lu.content) := by
  have hmemf : lu ∈ messages.filter (fun m => m.role == "user") := by
    unfold lastUserMessage at h1
    exact mem_of_getLastQ h1
  obtain ⟨hmem, hrole⟩ := List.mem_filter.mp hmemf
  have hrole' : lu.role = "user" := by simpa using hrole
  have hne : messages ≠ [] := by
    intro he; rw [he] at h2; simp at h2
  have hlast : messages.getLast hne = lastMsg := by
    rw [List.getLast?_eq_getLast _ hne, Option.some_inj] at h2
    exact h2
  have hmem' : lu ∈ messages.dropLast := by
    have hsplit : lu ∈ messages.dropLast ++ [messages.getLast hne] := by
      rw [List.dropLast_append_getLast hne]; exact hmem
    rcases List.mem_append.mp hsplit with hd | hd
    · exact hd
    · exfalso
      have hlu : lu = lastMsg := by simpa [hlast] using hd
      rw [hlu, h3] at hrole'
      exact absurd hrole' (by decide)
  have hmemr : renderMessage lu ∈ messages.dropLast.map renderMessage :=
    List.mem_map_of_mem renderMessage hmem'
  obtain ⟨a, b, hab⟩ := joinList_mem_split "\n\n" _ _ hmemr
  have hrend : renderMessage lu = "User: " ++ lu.content := by
    unfold renderMessage
    rw [if_pos hrole', show ("User" ++ ": " : String) = "User: " from rfl]
  rw [hrend] at hab
  have hctx : conversationContext messages = a ++ ("User: " ++ lu.content) ++ b := by
    unfold conversationContext
    exact hab
  have hctxne : conversationContext messages ≠ "" := by
    rw [hctx]
    intro h0
    have hlen := congrArg String.length h0
    simp only [String.length_append] at hlen
    rw [show ("User: " : String).length = 6 from rfl,
      show ("" : String).length = 0 from rfl] at hlen
    omega
  refine ⟨SYSTEM_PROMPT ++ "\n\nPrevious conversation:\n" ++ a, b ++ "\n\n", ?_⟩
  unfold fullPrompt
  rw [if_pos hctxne, hctx]
  rw [show ("\n\nUser: " : String) = "\n\n" ++ "User: " from rfl]
  simp only [String.append_assoc]

/-- Claim C10 witness: a two-turn conversation ending in an assistant turn;
the prompt repeats the user content "hi" twice. -/
theorem C10_duplicated_user_content_witness :
    ∃ x y, fullPrompt
        [{ role := "user", content := "hi" }, { role := "assistant", content := "yo" }]
        "hi" = x ++ ("User: " ++ "hi") ++ y ++ ("User: " ++ "hi") :=
  C10_duplicated_user_content
    [{ role := "user", content := "hi" }, { role := "assistant", content := "yo" }]
    { role := "user", content := "hi" } { role := "assistant", content := "yo" }
    (by decide) (by decide) (by decide)
